import Mathlib

/-!
A shallow embedding of the WhatsApp feedback-collection bot: the session
store of `conversationManager.js` and the webhook message dispatcher.
JavaScript `Date` values are modelled as `Nat` millisecond timestamps;
every `new Date()` taken during the handling of one inbound event is
modelled by a single `now` parameter threaded through the call.
-/

/-- JavaScript `String.prototype.toLowerCase`, modelled characterwise. -/
def toLowerCase (s : String) : String :=
  ⟨s.data.map Char.toLower⟩

/-- JavaScript `String.prototype.trim`: strip whitespace from both ends. -/
def trimWS (s : String) : String :=
  ⟨((s.data.dropWhile Char.isWhitespace).reverse.dropWhile Char.isWhitespace).reverse⟩

/-- Per-user session record, with the fields assigned by `createSession`
in `conversationManager.js`. -/
structure Session where
  step : Nat
  name : String
  feedback : String
  profileImageUrl : String
  createdAt : Nat
  lastActivity : Nat
  deriving DecidableEq, Repr

/-- The session store `this.sessions`, a JavaScript `Map` keyed by the
user's phone number, modelled as an association list with unique keys. -/
abbrev Store := List (String × Session)

/-- JavaScript `Map.prototype.get`, on the association-list model. -/
def Store.get? (st : Store) (userPhone : String) : Option Session :=
  (st.find? (fun p => p.1 == userPhone)).map (fun p => p.2)

/-- JavaScript `Map.prototype.delete`, on the association-list model. -/
def Store.delete (st : Store) (userPhone : String) : Store :=
  st.filter (fun p => p.1 != userPhone)

/-- JavaScript `Map.prototype.set`, on the association-list model. -/
def Store.set (st : Store) (userPhone : String) (s : Session) : Store :=
  (userPhone, s) :: st.delete userPhone

/-- The constant `this.sessionTimeout`: 12 hours in milliseconds. -/
def sessionTimeout : Nat := 12 * 60 * 60 * 1000

/-- The updates object passed to `updateSession`; absent fields are left
unchanged by `Object.assign`. -/
structure SessionUpdates where
  step : Option Nat := none
  name : Option String := none
  feedback : Option String := none
  profileImageUrl : Option String := none
  deriving DecidableEq, Repr

/-- Embeds `createSession`: a fresh step-1 session with empty fields and
both timestamps set to now, stored under the user's key. -/
def createSession (now : Nat) (st : Store) (userPhone : String) : Session × Store :=
  let session : Session :=
    { step := 1, name := "", feedback := "", profileImageUrl := "",
      createdAt := now, lastActivity := now }
  (session, st.set userPhone session)

/-- Embeds `isSessionExpired`: true iff `now - session.lastActivity`
exceeds the 12-hour timeout. A JavaScript negative difference (session
from the future) compares below the timeout exactly as the truncated Nat
subtraction does. -/
def isSessionExpired (now : Nat) (session : Session) : Bool :=
  now - session.lastActivity > sessionTimeout

/-- Embeds `getSession`: an expired hit is deleted and recreated, a miss
is created, a live hit has `lastActivity` refreshed in place. -/
def getSession (now : Nat) (st : Store) (userPhone : String) : Session × Store :=
  match st.get? userPhone with
  | some session =>
    if isSessionExpired now session then
      createSession now (st.delete userPhone) userPhone
    else
      let session1 := { session with lastActivity := now }
      (session1, st.set userPhone session1)
  | none => createSession now st userPhone

/-- Embeds `updateSession`: on a missing key, logs an error and returns a
fresh session (the updates are dropped); otherwise `Object.assign`s the
updates plus a refreshed `lastActivity` onto the stored session. -/
def updateSession (now : Nat) (st : Store) (userPhone : String)
    (updates : SessionUpdates) : Session × Store :=
  match st.get? userPhone with
  | none => createSession now st userPhone
  | some session =>
    let session1 : Session :=
      { step := updates.step.getD session.step,
        name := updates.name.getD session.name,
        feedback := updates.feedback.getD session.feedback,
        profileImageUrl := updates.profileImageUrl.getD session.profileImageUrl,
        createdAt := session.createdAt,
        lastActivity := now }
    (session1, st.set userPhone session1)

/-- Embeds `advanceStep`: reads the session through `getSession` and
persists `min(step + 1, 4)` through `updateSession`. -/
def advanceStep (now : Nat) (st : Store) (userPhone : String) : Session × Store :=
  let (session, st1) := getSession now st userPhone
  let nextStep := min (session.step + 1) 4
  updateSession now st1 userPhone { step := some nextStep }

/-- The completion record assembled by `logCompletedFeedback` (the fields
that derive from the session and the elapsed duration). -/
structure FeedbackRecord where
  userPhone : String
  name : String
  feedback : String
  profileImageUrl : String
  sessionDurationMinutes : Nat
  deriving DecidableEq, Repr

/-- Embeds `logCompletedFeedback`: the duration is
`Math.round((now - createdAt) / 60000)`, which for a nonnegative integer
millisecond count equals `(ms + 30000) / 60000` in integer division. -/
def logCompletedFeedback (now : Nat) (userPhone : String) (session : Session) :
    FeedbackRecord :=
  let sessionDuration := now - session.createdAt
  let durationMinutes := (sessionDuration + 30000) / 60000
  { userPhone := userPhone, name := session.name, feedback := session.feedback,
    profileImageUrl := session.profileImageUrl,
    sessionDurationMinutes := durationMinutes }

/-- Embeds `completeSession`: missing key logs an error and yields null;
otherwise the completion record is emitted, the entry deleted, and the
pre-deletion snapshot returned. -/
def completeSession (now : Nat) (st : Store) (userPhone : String) :
    Option Session × Option FeedbackRecord × Store :=
  match st.get? userPhone with
  | none => (none, none, st)
  | some session =>
    (some session, some (logCompletedFeedback now userPhone session),
     st.delete userPhone)

/-- The loop body of `cleanupExpiredSessions`: iterate over the entries
snapshot, deleting each expired one from the store and counting it. -/
def cleanupLoop (now : Nat) : List (String × Session) → Store → Nat × Store
  | [], st => (0, st)
  | entry :: rest, st =>
    if isSessionExpired now entry.2 then
      let (count, st1) := cleanupLoop now rest (st.delete entry.1)
      (count + 1, st1)
    else
      cleanupLoop now rest st

/-- Embeds `cleanupExpiredSessions`: sweep every entry, delete the
expired ones, return the count removed together with the swept store. -/
def cleanupExpiredSessions (now : Nat) (st : Store) : Nat × Store :=
  cleanupLoop now st st

/-- Embeds `resetSession`: force step 1 and clear the collected fields
through `updateSession`. -/
def resetSession (now : Nat) (st : Store) (userPhone : String) : Session × Store :=
  updateSession now st userPhone
    { step := some 1, name := some "", feedback := some "", profileImageUrl := some "" }

/-- A normalized inbound message as consumed by the dispatcher: the
sender key, the `type` tag, and the optional `text.body` and `image.id`
payloads. -/
structure Message where
  «from» : String
  type : String
  text : Option String := none
  image : Option String := none
  deriving DecidableEq, Repr

/-- The template keys the dispatcher selects for outbound sends, with
their arguments. -/
inductive Template where
  | greeting
  | needText
  | nameReceived (name : String)
  | feedbackReceived
  | needImage
  | completed (name : String)
  | systemError
  deriving DecidableEq, Repr

/-- Outbound sends requested during one processing call: pairs of the
recipient key and the selected template. -/
abbrev Outbox := List (String × Template)

/-- Embeds `handleNameCollection` (step 1): a non-text input re-prompts
with needText; a text input stores the trimmed body as the name, advances
the step, and acknowledges with the personalized nameReceived. -/
def handleNameCollection (now : Nat) (st : Store) (userPhone : String)
    (message : Message) : Store × Outbox :=
  if message.type != "text" || message.text.isNone then
    (st, [(userPhone, Template.needText)])
  else
    let name := trimWS (message.text.getD "")
    let (_, st1) := updateSession now st userPhone { name := some name }
    let (_, st2) := advanceStep now st1 userPhone
    (st2, [(userPhone, Template.nameReceived name)])

/-- Embeds `handleFeedbackCollection` (step 2): a non-text input
re-prompts with needText; a text input stores the trimmed body as the
feedback, advances the step, and replies with feedbackReceived. -/
def handleFeedbackCollection (now : Nat) (st : Store) (userPhone : String)
    (message : Message) : Store × Outbox :=
  if message.type != "text" || message.text.isNone then
    (st, [(userPhone, Template.needText)])
  else
    let feedback := trimWS (message.text.getD "")
    let (_, st1) := updateSession now st userPhone { feedback := some feedback }
    let (_, st2) := advanceStep now st1 userPhone
    (st2, [(userPhone, Template.feedbackReceived)])

/-- Embeds `handleImageCollection` (step 3): a non-image input re-prompts
with needImage; an image input stores the image id and completes the
session. The none branch of the completion cannot be reached because the
update just before it guarantees the session exists; in the source that
branch would be a thrown TypeError surfaced to the user as the
systemError template by the dispatcher's catch. -/
def handleImageCollection (now : Nat) (st : Store) (userPhone : String)
    (message : Message) : Store × Outbox :=
  if message.type != "image" || message.image.isNone then
    (st, [(userPhone, Template.needImage)])
  else
    let imageUrl := message.image.getD ""
    let (_, st1) := updateSession now st userPhone { profileImageUrl := some imageUrl }
    match completeSession now st1 userPhone with
    | (some completedSession, _, st2) =>
      (st2, [(userPhone, Template.completed completedSession.name)])
    | (none, _, st2) =>
      (st2, [(userPhone, Template.systemError)])

/-- Embeds `handleIncomingMessage`: the hi trigger (text whose body
lower-cases and trims to hi) force-creates a fresh session and greets,
taking priority over step routing; otherwise the session is fetched and
the message routed on its step, any step outside 1..3 being reset with a
fresh greeting. -/
def handleIncomingMessage (now : Nat) (st : Store) (message : Message) :
    Store × Outbox :=
  let userPhone := message.«from»
  if message.type == "text" && message.text.isSome &&
      trimWS (toLowerCase (message.text.getD "")) == "hi" then
    let (_, st1) := createSession now st userPhone
    (st1, [(userPhone, Template.greeting)])
  else
    let (session, st1) := getSession now st userPhone
    if session.step == 1 then handleNameCollection now st1 userPhone message
    else if session.step == 2 then handleFeedbackCollection now st1 userPhone message
    else if session.step == 3 then handleImageCollection now st1 userPhone message
    else
      let (_, st2) := resetSession now st1 userPhone
      (st2, [(userPhone, Template.greeting)])

/-- A message status update (delivery or read receipt). -/
structure MsgStatus where
  id : String
  recipient_id : String
  status : String
  timestamp : String
  deriving DecidableEq, Repr

/-- Embeds `handleMessageStatus`: purely observational, returning the
logged tuple and changing no state. -/
def handleMessageStatus (status : MsgStatus) : String × String × String × String :=
  (status.id, status.recipient_id, status.status, status.timestamp)

/-- The `change.value` object of a webhook change: optional `messages`
and `statuses` arrays. -/
structure ChangeValue where
  messages : Option (List Message) := none
  statuses : Option (List MsgStatus) := none

/-- One element of `entry.changes`. -/
structure WebhookChange where
  field : String
  value : ChangeValue

/-- One element of `payload.entry`. -/
structure WebhookEntry where
  changes : List WebhookChange

/-- The top-level webhook payload. -/
structure WebhookPayload where
  object : String
  entry : List WebhookEntry

/-- The inner message loop of `processWebhookPayload`. -/
def handleMessages (now : Nat) : List Message → Store → Store × Outbox
  | [], st => (st, [])
  | message :: rest, st =>
    let (st1, out1) := handleIncomingMessage now st message
    let (st2, out2) := handleMessages now rest st1
    (st2, out1 ++ out2)

/-- The loop over `entry.changes` in `processWebhookPayload`: a change
with field messages and a messages array has each message handled; a
change with field messages and a statuses array is only logged through
`handleMessageStatus` and changes no state; anything else is skipped. -/
def processChanges (now : Nat) : List WebhookChange → Store → Store × Outbox
  | [], st => (st, [])
  | change :: rest, st =>
    let (st1, out1) :=
      if change.field == "messages" && change.value.messages.isSome then
        handleMessages now (change.value.messages.getD []) st
      else (st, [])
    let (st2, out2) := processChanges now rest st1
    (st2, out1 ++ out2)

/-- The loop over `payload.entry` in `processWebhookPayload`. -/
def processEntries (now : Nat) : List WebhookEntry → Store → Store × Outbox
  | [], st => (st, [])
  | entry :: rest, st =>
    let (st1, out1) := processChanges now entry.changes st
    let (st2, out2) := processEntries now rest st1
    (st2, out1 ++ out2)

/-- Embeds `processWebhookPayload`: a payload whose object field is not
whatsapp business account is ignored; otherwise every entry and change is
walked as in the source. -/
def processWebhookPayload (now : Nat) (st : Store) (payload : WebhookPayload) :
    Store × Outbox :=
  if payload.object != "whatsapp_business_account" then (st, [])
  else processEntries now payload.entry st

/-- Runs the dispatcher over a sequence of timestamped inbound messages,
threading the store. -/
def runDispatcher : List (Nat × Message) → Store → Store
  | [], st => st
  | (now, message) :: rest, st =>
    runDispatcher rest (handleIncomingMessage now st message).1

/-- The spec's step-field invariant on one session: a step beyond 1 has a
nonempty name and a step beyond 2 has nonempty feedback. -/
def SessionOK (s : Session) : Prop :=
  (1 < s.step → s.name ≠ "") ∧ (2 < s.step → s.feedback ≠ "")

/-- The step-field invariant over every session in the store. -/
def StoreOK (st : Store) : Prop :=
  ∀ k s, st.get? k = some s → SessionOK s

/-- Lookup on a cons cell tests the head key first. -/
theorem Store.get?_cons (a : String × Session) (st : Store) (k : String) :
    Store.get? (a :: st) k = if a.1 == k then some a.2 else Store.get? st k := by
  cases h : a.1 == k <;> simp [Store.get?, List.find?, h]

/-- Deletion on a cons cell drops the head iff its key matches. -/
theorem Store.delete_cons (a : String × Session) (st : Store) (k : String) :
    Store.delete (a :: st) k = if a.1 == k then st.delete k else a :: st.delete k := by
  cases h : a.1 == k <;> simp [Store.delete, List.filter, bne, h]

/-- After deleting a key it can no longer be found. -/
theorem Store.get?_delete_self (st : Store) (k : String) :
    (st.delete k).get? k = none := by
  induction st with
  | nil => rfl
  | cons a rest ih =>
    rcases eq_or_ne a.1 k with ha | ha
    · simpa [Store.delete_cons, ha] using ih
    · simpa [Store.delete_cons, Store.get?_cons, ha] using ih

/-- Deleting one key leaves every other key's binding alone. -/
theorem Store.get?_delete_of_ne (st : Store) {k k' : String} (h : k' ≠ k) :
    (st.delete k).get? k' = st.get? k' := by
  induction st with
  | nil => rfl
  | cons a rest ih =>
    rcases eq_or_ne a.1 k with ha | ha
    · have hk' : (a.1 == k') = false := by simp [ha, Ne.symm h]
      simp [Store.delete_cons, Store.get?_cons, ha, hk', ih, Ne.symm h]
    · simp [Store.delete_cons, Store.get?_cons, ha, ih]

/-- Setting a key makes it findable with the new value. -/
theorem Store.get?_set_self (st : Store) (k : String) (v : Session) :
    (st.set k v).get? k = some v := by
  simp [Store.set, Store.get?_cons]

/-- Setting one key leaves every other key's binding alone. -/
theorem Store.get?_set_of_ne (st : Store) {k k' : String} (v : Session) (h : k' ≠ k) :
    (st.set k v).get? k' = st.get? k' := by
  have hk : (k == k') = false := by simp [Ne.symm h]
  simp [Store.set, Store.get?_cons, hk, Store.get?_delete_of_ne st h]

/-- Deleting a key twice is the same as deleting it once. -/
theorem Store.delete_delete_self (st : Store) (k : String) :
    (st.delete k).delete k = st.delete k := by
  induction st with
  | nil => rfl
  | cons a rest ih =>
    rcases eq_or_ne a.1 k with ha | ha
    · simp [Store.delete_cons, ha, ih]
    · simp [Store.delete_cons, ha, ih]

/-- Setting over a deletion of the same key is just setting it. -/
theorem Store.set_delete_self (st : Store) (k : String) (v : Session) :
    (st.delete k).set k v = st.set k v := by
  simp [Store.set, Store.delete_delete_self]

/-- Deleting a freshly set key removes it entirely. -/
theorem Store.delete_set_self (st : Store) (k : String) (v : Session) :
    (st.set k v).delete k = st.delete k := by
  simp [Store.set, Store.delete_cons, Store.delete_delete_self]

/-- Overwriting a freshly set key keeps only the second value. -/
theorem Store.set_set_self (st : Store) (k : String) (v w : Session) :
    (st.set k v).set k w = st.set k w := by
  calc (st.set k v).set k w = (k, w) :: (st.set k v).delete k := rfl
  _ = (k, w) :: st.delete k := by rw [Store.delete_set_self]
  _ = st.set k w := rfl

/-- A session sitting at step 1 satisfies the step-field invariant. -/
theorem sessionOK_of_step_one {s : Session} (h : s.step = 1) : SessionOK s := by
  constructor <;> intro hlt <;> omega

/-- The step-field invariant ignores the activity timestamp. -/
theorem sessionOK_refresh {s : Session} (h : SessionOK s) (now : Nat) :
    SessionOK { s with lastActivity := now } := h

/-- The empty store satisfies the invariant. -/
theorem storeOK_nil : StoreOK [] := by
  intro k s h
  simp [Store.get?] at h

/-- Setting an invariant-satisfying session preserves the store invariant. -/
theorem storeOK_set {st : Store} (hok : StoreOK st) {v : Session} (hv : SessionOK v)
    (k : String) : StoreOK (st.set k v) := by
  intro k' s' h'
  rcases eq_or_ne k' k with rfl | hne
  · rw [Store.get?_set_self] at h'
    obtain rfl : v = s' := Option.some.inj h'
    exact hv
  · rw [Store.get?_set_of_ne st v hne] at h'
    exact hok _ _ h'

/-- Deleting any key preserves the store invariant. -/
theorem storeOK_delete {st : Store} (hok : StoreOK st) (k : String) :
    StoreOK (st.delete k) := by
  intro k' s' h'
  rcases eq_or_ne k' k with rfl | hne
  · rw [Store.get?_delete_self] at h'
    cases h'
  · rw [Store.get?_delete_of_ne st hne] at h'
    exact hok _ _ h'

/-- A session whose activity was just refreshed is never expired. -/
theorem isSessionExpired_refresh (now : Nat) (s : Session) :
    isSessionExpired now { s with lastActivity := now } = false := by
  simp [isSessionExpired]

/-- updateSession on a present key patches the stored session in place. -/
theorem updateSession_hit {st : Store} {u : String} {s : Session}
    (h : st.get? u = some s) (now : Nat) (upd : SessionUpdates) :
    updateSession now st u upd =
      ({ step := upd.step.getD s.step, name := upd.name.getD s.name,
         feedback := upd.feedback.getD s.feedback,
         profileImageUrl := upd.profileImageUrl.getD s.profileImageUrl,
         createdAt := s.createdAt, lastActivity := now },
       st.set u { step := upd.step.getD s.step, name := upd.name.getD s.name,
                  feedback := upd.feedback.getD s.feedback,
                  profileImageUrl := upd.profileImageUrl.getD s.profileImageUrl,
                  createdAt := s.createdAt, lastActivity := now }) := by
  simp [updateSession, h]

/-- updateSession on a missing key degenerates to createSession. -/
theorem updateSession_miss {st : Store} {u : String}
    (h : st.get? u = none) (now : Nat) (upd : SessionUpdates) :
    updateSession now st u upd = createSession now st u := by
  simp [updateSession, h]

/-- getSession on a missing key creates a fresh session. -/
theorem getSession_miss {st : Store} {u : String} (h : st.get? u = none) (now : Nat) :
    getSession now st u = createSession now st u := by
  simp [getSession, h]

/-- getSession on a live hit refreshes the activity timestamp. -/
theorem getSession_hit_live {st : Store} {u : String} {s : Session}
    (h : st.get? u = some s) (now : Nat) (hexp : isSessionExpired now s = false) :
    getSession now st u =
      ({ s with lastActivity := now }, st.set u { s with lastActivity := now }) := by
  simp [getSession, h, hexp]

/-- getSession on an expired hit deletes the entry and creates afresh. -/
theorem getSession_hit_expired {st : Store} {u : String} {s : Session}
    (h : st.get? u = some s) (now : Nat) (hexp : isSessionExpired now s = true) :
    getSession now st u =
      ({ step := 1, name := "", feedback := "", profileImageUrl := "",
         createdAt := now, lastActivity := now },
       st.set u { step := 1, name := "", feedback := "", profileImageUrl := "",
                  createdAt := now, lastActivity := now }) := by
  simp [getSession, h, hexp, createSession, Store.set_delete_self]

/-- advanceStep on a live session clamps the step at 4 and stores it. -/
theorem advanceStep_hit_live {st : Store} {u : String} {s : Session}
    (h : st.get? u = some s) (now : Nat) (hexp : isSessionExpired now s = false) :
    advanceStep now st u =
      ({ s with step := min (s.step + 1) 4, lastActivity := now },
       st.set u { s with step := min (s.step + 1) 4, lastActivity := now }) := by
  rw [advanceStep, getSession_hit_live h now hexp]
  simp only []
  rw [updateSession_hit (Store.get?_set_self st u _) now _]
  simp [Store.set_set_self]

/-- handleNameCollection re-prompts and changes nothing on a non-text input. -/
theorem handleNameCollection_mismatch {m : Message}
    (hm : (m.type != "text" || m.text.isNone) = true)
    (now : Nat) (st : Store) (u : String) :
    handleNameCollection now st u m = (st, [(u, Template.needText)]) := by
  simp [handleNameCollection, hm]

/-- handleFeedbackCollection re-prompts and changes nothing on a non-text input. -/
theorem handleFeedbackCollection_mismatch {m : Message}
    (hm : (m.type != "text" || m.text.isNone) = true)
    (now : Nat) (st : Store) (u : String) :
    handleFeedbackCollection now st u m = (st, [(u, Template.needText)]) := by
  simp [handleFeedbackCollection, hm]

/-- handleImageCollection re-prompts and changes nothing on a non-image input. -/
theorem handleImageCollection_mismatch {m : Message}
    (hm : (m.type != "image" || m.image.isNone) = true)
    (now : Nat) (st : Store) (u : String) :
    handleImageCollection now st u m = (st, [(u, Template.needImage)]) := by
  simp [handleImageCollection, hm]

/-- handleNameCollection on a text input stores the trimmed body as the
name, advances the step, and acknowledges with the name. -/
theorem handleNameCollection_text {st : Store} {u : String} {s : Session} {m : Message}
    {b : String} (hs : st.get? u = some s) (now : Nat)
    (ht : m.type = "text") (hb : m.text = some b) :
    handleNameCollection now st u m =
      (st.set u { step := min (s.step + 1) 4, name := trimWS b,
                  feedback := s.feedback, profileImageUrl := s.profileImageUrl,
                  createdAt := s.createdAt, lastActivity := now },
       [(u, Template.nameReceived (trimWS b))]) := by
  have hcond : (m.type != "text" || m.text.isNone) = false := by simp [ht, hb]
  rw [handleNameCollection, hcond]
  simp only [Bool.false_eq_true, if_false, hb, Option.getD_some]
  rw [updateSession_hit hs now _]
  simp only []
  rw [advanceStep_hit_live (Store.get?_set_self st u _) now (by simp [isSessionExpired])]
  simp [Store.set_set_self]

/-- handleFeedbackCollection on a text input stores the trimmed body as
the feedback, advances the step, and acknowledges. -/
theorem handleFeedbackCollection_text {st : Store} {u : String} {s : Session}
    {m : Message} {b : String} (hs : st.get? u = some s) (now : Nat)
    (ht : m.type = "text") (hb : m.text = some b) :
    handleFeedbackCollection now st u m =
      (st.set u { step := min (s.step + 1) 4, name := s.name,
                  feedback := trimWS b, profileImageUrl := s.profileImageUrl,
                  createdAt := s.createdAt, lastActivity := now },
       [(u, Template.feedbackReceived)]) := by
  have hcond : (m.type != "text" || m.text.isNone) = false := by simp [ht, hb]
  rw [handleFeedbackCollection, hcond]
  simp only [Bool.false_eq_true, if_false, hb, Option.getD_some]
  rw [updateSession_hit hs now _]
  simp only []
  rw [advanceStep_hit_live (Store.get?_set_self st u _) now (by simp [isSessionExpired])]
  simp [Store.set_set_self]

/-- handleImageCollection on an image input stores the image id,
completes the session, deletes its entry, and acknowledges with the
collected name. -/
theorem handleImageCollection_image {st : Store} {u : String} {s : Session}
    {m : Message} {i : String} (hs : st.get? u = some s) (now : Nat)
    (ht : m.type = "image") (hi : m.image = some i) :
    handleImageCollection now st u m =
      (st.delete u, [(u, Template.completed s.name)]) := by
  have hcond : (m.type != "image" || m.image.isNone) = false := by simp [ht, hi]
  rw [handleImageCollection, hcond]
  simp only [Bool.false_eq_true, if_false, hi, Option.getD_some]
  rw [updateSession_hit hs now _]
  simp only []
  simp [completeSession, Store.get?_set_self, Store.delete_set_self]

/-- resetSession on a present key zeroes the flow fields, keeping the
creation timestamp. -/
theorem resetSession_hit {st : Store} {u : String} {s : Session}
    (hs : st.get? u = some s) (now : Nat) :
    resetSession now st u =
      ({ step := 1, name := "", feedback := "", profileImageUrl := "",
         createdAt := s.createdAt, lastActivity := now },
       st.set u { step := 1, name := "", feedback := "", profileImageUrl := "",
                  createdAt := s.createdAt, lastActivity := now }) := by
  rw [resetSession, updateSession_hit hs now _]
  simp

/-- The hi trigger force-creates a fresh session and emits the greeting,
regardless of the current state. -/
theorem handleIncomingMessage_hi {m : Message} (ht : m.type = "text") {b : String}
    (hb : m.text = some b) (hhi : trimWS (toLowerCase b) = "hi") (now : Nat) (st : Store) :
    handleIncomingMessage now st m =
      (st.set m.«from» { step := 1, name := "", feedback := "", profileImageUrl := "",
                         createdAt := now, lastActivity := now },
       [(m.«from», Template.greeting)]) := by
  simp [handleIncomingMessage, ht, hb, hhi, createSession]

/-- getSession always returns an invariant-satisfying session and stores
it back under the user's key. -/
theorem getSession_spec (now : Nat) (st : Store) (u : String) (hok : StoreOK st) :
    SessionOK (getSession now st u).1 ∧
    (getSession now st u).2 = st.set u (getSession now st u).1 := by
  rcases hg : st.get? u with _ | s
  · rw [getSession_miss hg now]
    exact ⟨sessionOK_of_step_one rfl, rfl⟩
  · cases he : isSessionExpired now s
    · rw [getSession_hit_live hg now he]
      exact ⟨sessionOK_refresh (hok _ _ hg) now, rfl⟩
    · rw [getSession_hit_expired hg now he]
      exact ⟨sessionOK_of_step_one rfl, rfl⟩

/-- handleNameCollection preserves the store invariant when the handled
session sits at step 1 and text bodies trim to nonempty strings. -/
theorem handleNameCollection_storeOK {st : Store} {u : String} {s : Session}
    {m : Message} (hok : StoreOK st) (hs : st.get? u = some s) (hstep : s.step = 1)
    (hne : ∀ b, m.text = some b → trimWS b ≠ "") (now : Nat) :
    StoreOK (handleNameCollection now st u m).1 := by
  by_cases hm : (m.type != "text" || m.text.isNone) = true
  · rw [handleNameCollection_mismatch hm]
    exact hok
  · have hm' := eq_false_of_ne_true hm
    have ht : m.type = "text" := by
      have := (Bool.or_eq_false_iff.mp hm').1
      simpa using this
    obtain ⟨b, hb⟩ : ∃ b, m.text = some b := by
      have h2 := (Bool.or_eq_false_iff.mp hm').2
      cases hmt : m.text with
      | none => rw [hmt] at h2; simp at h2
      | some b => exact ⟨b, rfl⟩
    rw [handleNameCollection_text hs now ht hb]
    have hv : SessionOK
        { step := min (s.step + 1) 4, name := trimWS b, feedback := s.feedback,
          profileImageUrl := s.profileImageUrl, createdAt := s.createdAt,
          lastActivity := now } := by
      constructor
      · intro _
        exact hne b hb
      · intro hlt
        have hcontra : ¬ (2 < min (s.step + 1) 4) := by omega
        exact absurd hlt hcontra
    exact storeOK_set hok hv u

/-- handleFeedbackCollection preserves the store invariant when the
handled session sits at step 2 with a nonempty name and text bodies trim
to nonempty strings. -/
theorem handleFeedbackCollection_storeOK {st : Store} {u : String} {s : Session}
    {m : Message} (hok : StoreOK st) (hs : st.get? u = some s) (_hstep : s.step = 2)
    (hname : s.name ≠ "")
    (hne : ∀ b, m.text = some b → trimWS b ≠ "") (now : Nat) :
    StoreOK (handleFeedbackCollection now st u m).1 := by
  by_cases hm : (m.type != "text" || m.text.isNone) = true
  · rw [handleFeedbackCollection_mismatch hm]
    exact hok
  · have hm' := eq_false_of_ne_true hm
    have ht : m.type = "text" := by
      have := (Bool.or_eq_false_iff.mp hm').1
      simpa using this
    obtain ⟨b, hb⟩ : ∃ b, m.text = some b := by
      have h2 := (Bool.or_eq_false_iff.mp hm').2
      cases hmt : m.text with
      | none => rw [hmt] at h2; simp at h2
      | some b => exact ⟨b, rfl⟩
    rw [handleFeedbackCollection_text hs now ht hb]
    have hv : SessionOK
        { step := min (s.step + 1) 4, name := s.name, feedback := trimWS b,
          profileImageUrl := s.profileImageUrl, createdAt := s.createdAt,
          lastActivity := now } := by
      constructor
      · intro _
        exact hname
      · intro _
        exact hne b hb
    exact storeOK_set hok hv u

/-- handleImageCollection preserves the store invariant. -/
theorem handleImageCollection_storeOK {st : Store} {u : String} {s : Session}
    {m : Message} (hok : StoreOK st) (hs : st.get? u = some s) (now : Nat) :
    StoreOK (handleImageCollection now st u m).1 := by
  by_cases hm : (m.type != "image" || m.image.isNone) = true
  · rw [handleImageCollection_mismatch hm]
    exact hok
  · have hm' := eq_false_of_ne_true hm
    have ht : m.type = "image" := by
      have := (Bool.or_eq_false_iff.mp hm').1
      simpa using this
    obtain ⟨i, hi⟩ : ∃ i, m.image = some i := by
      have h2 := (Bool.or_eq_false_iff.mp hm').2
      cases hmt : m.image with
      | none => rw [hmt] at h2; simp at h2
      | some i => exact ⟨i, rfl⟩
    rw [handleImageCollection_image hs now ht hi]
    exact storeOK_delete hok u

/-- One dispatcher call preserves the store invariant, provided any text
body carried by the message has a nonempty trim. -/
theorem handleIncomingMessage_storeOK (now : Nat) (st : Store) (m : Message)
    (hok : StoreOK st) (hne : ∀ b, m.text = some b → trimWS b ≠ "") :
    StoreOK (handleIncomingMessage now st m).1 := by
  by_cases hhi : (m.type == "text" && m.text.isSome &&
      trimWS (toLowerCase (m.text.getD "")) == "hi") = true
  · simp only [handleIncomingMessage, hhi, if_true, createSession]
    exact storeOK_set hok (sessionOK_of_step_one rfl) m.«from»
  · have hno : (m.type == "text" && m.text.isSome &&
        trimWS (toLowerCase (m.text.getD "")) == "hi") = false := eq_false_of_ne_true hhi
    obtain ⟨hgOK, hgeq⟩ := getSession_spec now st m.«from» hok
    rcases hG : getSession now st m.«from» with ⟨s1, st1⟩
    rw [hG] at hgeq hgOK
    simp only at hgeq hgOK
    subst hgeq
    have hs1get : (st.set m.«from» s1).get? m.«from» = some s1 :=
      Store.get?_set_self st m.«from» s1
    have hst1OK : StoreOK (st.set m.«from» s1) := storeOK_set hok hgOK m.«from»
    simp only [handleIncomingMessage, hno, Bool.false_eq_true, if_false, hG]
    by_cases h1 : s1.step = 1
    · simp only [h1, beq_self_eq_true, if_true]
      exact handleNameCollection_storeOK hst1OK hs1get h1 hne now
    · have hb1 : (s1.step == 1) = false := by simp [h1]
      by_cases h2 : s1.step = 2
      · simp only [hb1, Bool.false_eq_true, if_false, h2, beq_self_eq_true, if_true]
        exact handleFeedbackCollection_storeOK hst1OK hs1get h2
          (hgOK.1 (by omega)) hne now
      · have hb2 : (s1.step == 2) = false := by simp [h2]
        by_cases h3 : s1.step = 3
        · simp only [hb1, hb2, Bool.false_eq_true, if_false, h3,
            beq_self_eq_true, if_true]
          exact handleImageCollection_storeOK hst1OK hs1get now
        · have hb3 : (s1.step == 3) = false := by simp [h3]
          simp only [hb1, hb2, hb3, Bool.false_eq_true, if_false]
          rw [resetSession_hit hs1get now]
          simp only [Store.set_set_self]
          exact storeOK_set hok (sessionOK_of_step_one rfl) m.«from»

/-- Running any sequence of dispatcher calls from an invariant-satisfying
store preserves the invariant, provided every text body trims nonempty. -/
theorem runDispatcher_storeOK (msgs : List (Nat × Message)) (st : Store)
    (hok : StoreOK st)
    (hne : ∀ p ∈ msgs, ∀ b, p.2.text = some b → trimWS b ≠ "") :
    StoreOK (runDispatcher msgs st) := by
  induction msgs generalizing st with
  | nil => exact hok
  | cons p rest ih =>
    obtain ⟨now, m⟩ := p
    rw [runDispatcher]
    exact ih _
      (handleIncomingMessage_storeOK now st m hok
        (fun b hb => hne (now, m) (List.mem_cons_self _ _) b hb))
      (fun q hq b hb => hne q (List.mem_cons_of_mem _ hq) b hb)

/-- The sweep's removal count depends only on the entries snapshot: it is
the number of expired entries. -/
theorem cleanupLoop_fst (now : Nat) (l : List (String × Session)) (st : Store) :
    (cleanupLoop now l st).1 =
      (l.filter (fun p => isSessionExpired now p.2)).length := by
  induction l generalizing st with
  | nil => rfl
  | cons p rest ih =>
    rw [cleanupLoop]
    by_cases hp : isSessionExpired now p.2
    · rcases hC : cleanupLoop now rest (st.delete p.1) with ⟨c, st1⟩
      have hih := ih (st.delete p.1)
      rw [hC] at hih
      simp only at hih
      simp [hp, hC, List.filter_cons, hih]
    · simp [hp, List.filter_cons, ih st]

/-- The sweep's resulting store drops exactly the keys of the expired
snapshot entries. -/
theorem cleanupLoop_snd (now : Nat) (l : List (String × Session)) (st : Store) :
    (cleanupLoop now l st).2 =
      st.filter (fun q => !(l.any (fun p => isSessionExpired now p.2 && p.1 == q.1))) := by
  induction l generalizing st with
  | nil => simp [cleanupLoop]
  | cons p rest ih =>
    rw [cleanupLoop]
    by_cases hp : isSessionExpired now p.2
    · rcases hC : cleanupLoop now rest (st.delete p.1) with ⟨c, st1⟩
      have hih := ih (st.delete p.1)
      rw [hC] at hih
      simp only at hih
      simp only [hp, if_true, hC]
      rw [hih, Store.delete, List.filter_filter]
      apply List.filter_congr
      intro q hq
      by_cases hpq : p.1 = q.1
      · simp [hpq, hp, List.any_cons, Bool.and_comm]
      · have h1 : (p.1 == q.1) = false := beq_eq_false_iff_ne.mpr hpq
        have h2 : (q.1 != p.1) = true := bne_iff_ne.mpr (Ne.symm hpq)
        simp [hp, List.any_cons, h1, h2]
    · have hp' : isSessionExpired now p.2 = false := eq_false_of_ne_true hp
      simp [hp', List.any_cons, ih st]

/-- In a store with pairwise distinct keys, two entries with the same key
are the same entry. -/
theorem mem_eq_of_keys_nodup {st : Store} (hnd : (st.map Prod.fst).Nodup)
    {p q : String × Session} (hp : p ∈ st) (hq : q ∈ st) (hk : p.1 = q.1) : p = q := by
  induction st with
  | nil => cases hp
  | cons a rest ih =>
    rw [List.map_cons, List.nodup_cons] at hnd
    rcases List.mem_cons.mp hp with rfl | hp'
    · rcases List.mem_cons.mp hq with rfl | hq'
      · rfl
      · have hmem : p.1 ∈ rest.map Prod.fst := by
          rw [hk]
          exact List.mem_map_of_mem Prod.fst hq'
        exact absurd hmem hnd.1
    · rcases List.mem_cons.mp hq with rfl | hq'
      · have hmem : q.1 ∈ rest.map Prod.fst := by
          rw [← hk]
          exact List.mem_map_of_mem Prod.fst hp'
        exact absurd hmem hnd.1
      · exact ih hnd.2 hp' hq'

/-- With unique keys, an entry of the store is hit by the sweep's
key-based deletion test exactly when it is itself expired. -/
theorem any_expired_key_eq {st : Store} (hnd : (st.map Prod.fst).Nodup)
    (now : Nat) {q : String × Session} (hq : q ∈ st) :
    (st.any (fun p => isSessionExpired now p.2 && p.1 == q.1)) =
      isSessionExpired now q.2 := by
  cases hqe : isSessionExpired now q.2
  · rw [List.any_eq_false]
    intro p hp
    by_cases hk : p.1 = q.1
    · have : p = q := mem_eq_of_keys_nodup hnd hp hq hk
      subst this
      simp [hqe]
    · simp [hk]
  · rw [List.any_eq_true]
    exact ⟨q, hq, by simp [hqe]⟩

/-- The sweep removes exactly the expired entries, leaves the live ones
untouched, and returns the number removed. -/
theorem cleanupExpiredSessions_spec (now : Nat) (st : Store)
    (hnd : (st.map Prod.fst).Nodup) :
    (cleanupExpiredSessions now st).1 =
      (st.filter (fun p => isSessionExpired now p.2)).length ∧
    (cleanupExpiredSessions now st).2 =
      st.filter (fun p => !isSessionExpired now p.2) := by
  constructor
  · exact cleanupLoop_fst now st st
  · rw [cleanupExpiredSessions, cleanupLoop_snd now st st]
    apply List.filter_congr
    intro q hq
    rw [any_expired_key_eq hnd now hq]

/-- C1 (amended): for every sequence of dispatcher-handled inbound
messages in which every text body trims to a nonempty string, every
session in the resulting store (starting from the empty store) satisfies
the step-field invariant: never step over 1 with an empty name, never
step over 2 with empty feedback. The exception for the moment right
after a reset is vacuous, since both reset paths put the step back to 1. -/
theorem C1_step_field_invariant (msgs : List (Nat × Message))
    (hne : ∀ p ∈ msgs, ∀ b, p.2.text = some b → trimWS b ≠ "") :
    StoreOK (runDispatcher msgs []) :=
  runDispatcher_storeOK msgs [] storeOK_nil hne

/-- C1 counterexample: a single ordinary step-1 message (no reset is
involved) whose text body is the empty string drives the fresh session
to step 2 with an empty name, so the claim as stated fails. -/
theorem C1_counterexample :
    (handleIncomingMessage 0 []
        { «from» := "u", type := "text", text := some "", image := none }).1.get? "u" =
      some { step := 2, name := "", feedback := "", profileImageUrl := "",
             createdAt := 0, lastActivity := 0 } := by
  decide

/-- C1 witness: the amended invariant evaluated on a concrete run. -/
theorem C1_step_field_invariant_witness :
    StoreOK (runDispatcher
      [(0, { «from» := "u", type := "text", text := some "hi", image := none })] []) := by
  apply C1_step_field_invariant
  intro p hp b hb
  rw [List.mem_singleton] at hp
  subst hp
  injection hb with hb'
  subst hb'
  decide

/-- C2: `getSession` never returns an expired session. If the stored
session's lastActivity lies strictly more than 12 hours before now, the
returned session is fresh: step 1 and empty name, feedback and image
fields. On a live hit it returns the stored session with lastActivity
refreshed to now. -/
theorem C2_get_never_returns_expired (now : Nat) (st : Store) (u : String)
    (s : Session) (h : st.get? u = some s) :
    (sessionTimeout < now - s.lastActivity →
      (getSession now st u).1.step = 1 ∧ (getSession now st u).1.name = "" ∧
      (getSession now st u).1.feedback = "" ∧
      (getSession now st u).1.profileImageUrl = "") ∧
    (¬ sessionTimeout < now - s.lastActivity →
      getSession now st u =
        ({ s with lastActivity := now }, st.set u { s with lastActivity := now })) := by
  constructor
  · intro hexp
    have he : isSessionExpired now s = true := by
      simp [isSessionExpired]
      omega
    rw [getSession_hit_expired h now he]
    exact ⟨rfl, rfl, rfl, rfl⟩
  · intro hlive
    have he : isSessionExpired now s = false := by
      simp [isSessionExpired]
      omega
    exact getSession_hit_live h now he

/-- C2 witness: a session whose activity is 12 hours and 1 millisecond
old is replaced by a fresh step-1 session. -/
theorem C2_get_never_returns_expired_witness :
    (sessionTimeout < 43200001 -
        (Session.mk 3 "A" "F" "img" 0 0).lastActivity →
      (getSession 43200001 [("u", Session.mk 3 "A" "F" "img" 0 0)] "u").1.step = 1 ∧
      (getSession 43200001 [("u", Session.mk 3 "A" "F" "img" 0 0)] "u").1.name = "" ∧
      (getSession 43200001 [("u", Session.mk 3 "A" "F" "img" 0 0)] "u").1.feedback = "" ∧
      (getSession 43200001 [("u", Session.mk 3 "A" "F" "img" 0 0)] "u").1.profileImageUrl = "") ∧
    (¬ sessionTimeout < 43200001 - (Session.mk 3 "A" "F" "img" 0 0).lastActivity →
      getSession 43200001 [("u", Session.mk 3 "A" "F" "img" 0 0)] "u" =
        ({ Session.mk 3 "A" "F" "img" 0 0 with lastActivity := 43200001 },
         Store.set [("u", Session.mk 3 "A" "F" "img" 0 0)] "u"
           { Session.mk 3 "A" "F" "img" 0 0 with lastActivity := 43200001 })) :=
  C2_get_never_returns_expired 43200001 [("u", Session.mk 3 "A" "F" "img" 0 0)] "u"
    (Session.mk 3 "A" "F" "img" 0 0) (by decide)

/-- C3: from any state, a text message whose body lower-cases and trims
to hi force-creates a fresh step-1 session with empty fields for the
sender (discarding any collected data), emits the greeting, and bypasses
the step-based routing entirely. -/
theorem C3_hi_trigger (now : Nat) (st : Store) (m : Message) (b : String)
    (ht : m.type = "text") (hb : m.text = some b)
    (hhi : trimWS (toLowerCase b) = "hi") :
    handleIncomingMessage now st m =
      (st.set m.«from» { step := 1, name := "", feedback := "", profileImageUrl := "",
                         createdAt := now, lastActivity := now },
       [(m.«from», Template.greeting)]) :=
  handleIncomingMessage_hi ht hb hhi now st

/-- C3 witness: a mid-flow session at step 3 is wholly replaced when the
user sends a padded upper-case Hi. -/
theorem C3_hi_trigger_witness :
    handleIncomingMessage 7 [("u", Session.mk 3 "A" "F" "img" 1 2)]
        { «from» := "u", type := "text", text := some " HI ", image := none } =
      (Store.set [("u", Session.mk 3 "A" "F" "img" 1 2)] "u"
        { step := 1, name := "", feedback := "", profileImageUrl := "",
          createdAt := 7, lastActivity := 7 },
       [("u", Template.greeting)]) :=
  C3_hi_trigger 7 [("u", Session.mk 3 "A" "F" "img" 1 2)]
    { «from» := "u", type := "text", text := some " HI ", image := none } " HI "
    rfl rfl (by decide)

/-- C4: updating a user key that holds no session logs an error and
returns a freshly created step-1 session with empty fields; the requested
field values are dropped (the result is independent of the updates
argument), and being a total function the operation cannot throw. -/
theorem C4_update_missing_session (now : Nat) (st : Store) (u : String)
    (upd : SessionUpdates) (h : st.get? u = none) :
    updateSession now st u upd = createSession now st u ∧
    (updateSession now st u upd).1 =
      { step := 1, name := "", feedback := "", profileImageUrl := "",
        createdAt := now, lastActivity := now } := by
  constructor
  · exact updateSession_miss h now upd
  · rw [updateSession_miss h now upd]
    exact rfl

/-- C4 witness: an update carrying a name against an empty store yields
the fresh session, with the name not applied. -/
theorem C4_update_missing_session_witness :
    updateSession 9 [] "u" { name := some "Alice" } = createSession 9 [] "u" ∧
    (updateSession 9 [] "u" { name := some "Alice" }).1 =
      { step := 1, name := "", feedback := "", profileImageUrl := "",
        createdAt := 9, lastActivity := 9 } :=
  C4_update_missing_session 9 [] "u" { name := some "Alice" } rfl

/-- C5: completing a missing session returns null and leaves the store
alone; completing an existing session emits the completion record built
from its fields plus the rounded elapsed minutes, deletes the entry, and
returns the pre-deletion snapshot, so a later `getSession` for the same
key creates a brand-new step-1 session with empty fields. -/
theorem C5_complete_session (now now2 : Nat) (st : Store) (u : String) :
    (st.get? u = none → completeSession now st u = (none, none, st)) ∧
    (∀ s, st.get? u = some s →
      completeSession now st u =
        (some s,
         some { userPhone := u, name := s.name, feedback := s.feedback,
                profileImageUrl := s.profileImageUrl,
                sessionDurationMinutes := (now - s.createdAt + 30000) / 60000 },
         st.delete u) ∧
      (getSession now2 (completeSession now st u).2.2 u).1 =
        { step := 1, name := "", feedback := "", profileImageUrl := "",
          createdAt := now2, lastActivity := now2 }) := by
  constructor
  · intro h
    simp [completeSession, h]
  · intro s hs
    have hmain : completeSession now st u =
        (some s,
         some { userPhone := u, name := s.name, feedback := s.feedback,
                profileImageUrl := s.profileImageUrl,
                sessionDurationMinutes := (now - s.createdAt + 30000) / 60000 },
         st.delete u) := by
      simp [completeSession, hs, logCompletedFeedback]
    refine ⟨hmain, ?_⟩
    rw [hmain]
    rw [getSession_miss (Store.get?_delete_self st u) now2]
    exact rfl

/-- C5 witness: completing a full session 90 seconds after creation logs
a 2-minute (rounded from 1.5) record, and a later get is a fresh step-1
session. -/
theorem C5_complete_session_witness :
    completeSession 90000 [("u", Session.mk 3 "A" "F" "img" 0 2)] "u" =
      (some (Session.mk 3 "A" "F" "img" 0 2),
       some { userPhone := "u", name := "A", feedback := "F",
              profileImageUrl := "img", sessionDurationMinutes := 2 },
       Store.delete [("u", Session.mk 3 "A" "F" "img" 0 2)] "u") ∧
    (getSession 90001
        (completeSession 90000 [("u", Session.mk 3 "A" "F" "img" 0 2)] "u").2.2 "u").1 =
      { step := 1, name := "", feedback := "", profileImageUrl := "",
        createdAt := 90001, lastActivity := 90001 } :=
  (C5_complete_session 90000 90001 [("u", Session.mk 3 "A" "F" "img" 0 2)] "u").2
    (Session.mk 3 "A" "F" "img" 0 2) (by decide)

/-- C6: on a live session, `advanceStep` sets the step to
min(currentStep + 1, 4); once the step is 4, a further advance (within
the activity window) leaves it at 4, so the ceiling is idempotent. -/
theorem C6_advance_clamped (now now2 : Nat) (st : Store) (u : String) (s : Session)
    (h : st.get? u = some s) (hexp : isSessionExpired now s = false)
    (hlater : now2 - now ≤ sessionTimeout) :
    (advanceStep now st u).1.step = min (s.step + 1) 4 ∧
    (s.step = 4 → (advanceStep now2 (advanceStep now st u).2 u).1.step = 4) := by
  rw [advanceStep_hit_live h now hexp]
  constructor
  · rfl
  · intro h4
    have hexp2 : isSessionExpired now2
        { s with step := min (s.step + 1) 4, lastActivity := now } = false := by
      simp [isSessionExpired]
      omega
    rw [advanceStep_hit_live (Store.get?_set_self st u _) now2 hexp2]
    simp [h4]

/-- C6 witness: advancing a step-4 session twice keeps it at 4. -/
theorem C6_advance_clamped_witness :
    (advanceStep 10 [("u", Session.mk 4 "A" "F" "img" 0 5)] "u").1.step =
      min ((Session.mk 4 "A" "F" "img" 0 5).step + 1) 4 ∧
    ((Session.mk 4 "A" "F" "img" 0 5).step = 4 →
      (advanceStep 11
        (advanceStep 10 [("u", Session.mk 4 "A" "F" "img" 0 5)] "u").2 "u").1.step = 4) :=
  C6_advance_clamped 10 11 [("u", Session.mk 4 "A" "F" "img" 0 5)] "u"
    (Session.mk 4 "A" "F" "img" 0 5) (by decide) (by decide) (by decide)

/-- C7: with pairwise distinct keys, the sweep removes exactly the
expired sessions, leaves every live session untouched, and returns the
number removed. -/
theorem C7_sweep_expired (now : Nat) (st : Store)
    (hnd : (st.map Prod.fst).Nodup) :
    (cleanupExpiredSessions now st).1 =
      (st.filter (fun p => isSessionExpired now p.2)).length ∧
    (cleanupExpiredSessions now st).2 =
      st.filter (fun p => !isSessionExpired now p.2) :=
  cleanupExpiredSessions_spec now st hnd

/-- C7 witness: one expired and one live session; the sweep removes
exactly the expired one and returns 1. -/
theorem C7_sweep_expired_witness :
    (cleanupExpiredSessions 50000000
        [("a", Session.mk 1 "" "" "" 0 0), ("b", Session.mk 2 "B" "" "" 0 49999999)]).1 =
      (List.filter (fun p => isSessionExpired 50000000 p.2)
        [("a", Session.mk 1 "" "" "" 0 0), ("b", Session.mk 2 "B" "" "" 0 49999999)]).length ∧
    (cleanupExpiredSessions 50000000
        [("a", Session.mk 1 "" "" "" 0 0), ("b", Session.mk 2 "B" "" "" 0 49999999)]).2 =
      List.filter (fun p => !isSessionExpired 50000000 p.2)
        [("a", Session.mk 1 "" "" "" 0 0), ("b", Session.mk 2 "B" "" "" 0 49999999)] :=
  C7_sweep_expired 50000000
    [("a", Session.mk 1 "" "" "" 0 0), ("b", Session.mk 2 "B" "" "" 0 49999999)]
    (by decide)

/-- The change loop skips every change that lacks a recognized field. -/
theorem processChanges_skip (now : Nat) (cs : List WebhookChange) (st : Store)
    (h : ∀ c ∈ cs, c.field ≠ "messages" ∨
      (c.value.messages = none ∧ c.value.statuses = none)) :
    processChanges now cs st = (st, []) := by
  induction cs generalizing st with
  | nil => rfl
  | cons c rest ih =>
    have hc : (c.field == "messages" && c.value.messages.isSome) = false := by
      rcases h c (List.mem_cons_self c rest) with hf | ⟨hm, _⟩
      · simp [hf]
      · simp [hm]
    rw [processChanges, hc]
    simp only [Bool.false_eq_true, if_false]
    rw [ih st (fun c hc => h c (List.mem_cons_of_mem _ hc))]
    rfl

/-- The entry loop skips every entry all of whose changes lack a
recognized field. -/
theorem processEntries_skip (now : Nat) (es : List WebhookEntry) (st : Store)
    (h : ∀ e ∈ es, ∀ c ∈ e.changes, c.field ≠ "messages" ∨
      (c.value.messages = none ∧ c.value.statuses = none)) :
    processEntries now es st = (st, []) := by
  induction es generalizing st with
  | nil => rfl
  | cons e rest ih =>
    rw [processEntries, processChanges_skip now e.changes st (h e (List.mem_cons_self e rest))]
    simp only []
    rw [ih st (fun e he => h e (List.mem_cons_of_mem _ he))]
    rfl

/-- C8: a webhook payload whose object field is not the recognized value,
or all of whose changes lack a recognized field, is processed with no
state change and no outbound sends, completing without error. -/
theorem C8_malformed_payload_ignored (now : Nat) (st : Store)
    (payload : WebhookPayload)
    (h : payload.object ≠ "whatsapp_business_account" ∨
      ∀ e ∈ payload.entry, ∀ c ∈ e.changes, c.field ≠ "messages" ∨
        (c.value.messages = none ∧ c.value.statuses = none)) :
    processWebhookPayload now st payload = (st, []) := by
  by_cases hobj : payload.object = "whatsapp_business_account"
  · have hent : ∀ e ∈ payload.entry, ∀ c ∈ e.changes, c.field ≠ "messages" ∨
        (c.value.messages = none ∧ c.value.statuses = none) := by
      rcases h with h | h
      · exact absurd hobj h
      · exact h
    rw [processWebhookPayload]
    have hcond : (payload.object != "whatsapp_business_account") = false := by
      simp [hobj]
    rw [hcond]
    simp only [Bool.false_eq_true, if_false]
    exact processEntries_skip now payload.entry st hent
  · have hcond : (payload.object != "whatsapp_business_account") = true := by
      simp [hobj]
    rw [processWebhookPayload, hcond]
    simp

/-- C8 witness: a payload with a wrong object field and a nonempty store
is left untouched. -/
theorem C8_malformed_payload_ignored_witness :
    processWebhookPayload 3 [("u", Session.mk 2 "A" "" "" 0 1)]
      { object := "page",
        entry := [{ changes := [{ field := "statuses", value := {} }] }] } =
      ([("u", Session.mk 2 "A" "" "" 0 1)], []) :=
  C8_malformed_payload_ignored 3 [("u", Session.mk 2 "A" "" "" 0 1)]
    { object := "page",
      entry := [{ changes := [{ field := "statuses", value := {} }] }] }
    (Or.inl (by decide))

/-- C9 (amended): for a live existing session and a message that is not
the hi trigger, a type mismatch with the current step (non-text at steps
1 and 2, non-image at step 3) leaves step, name, feedback and image
untouched — only lastActivity is refreshed by the session read — and the
dispatcher emits the re-prompt matching the step. -/
theorem C9_type_mismatch_reprompt (now : Nat) (st : Store) (m : Message) (s : Session)
    (hs : st.get? m.«from» = some s)
    (hexp : isSessionExpired now s = false)
    (hcase : ((s.step = 1 ∨ s.step = 2) ∧ m.type ≠ "text") ∨
      (s.step = 3 ∧ m.type ≠ "image" ∧
        ¬(m.type = "text" ∧ trimWS (toLowerCase (m.text.getD "")) = "hi"))) :
    handleIncomingMessage now st m =
      (st.set m.«from» { s with lastActivity := now },
       [(m.«from», if s.step = 3 then Template.needImage else Template.needText)]) := by
  have hno : (m.type == "text" && m.text.isSome &&
      trimWS (toLowerCase (m.text.getD "")) == "hi") = false := by
    rcases hcase with ⟨_, hnt⟩ | ⟨_, _, hnothi⟩
    · simp [hnt]
    · by_cases ht : m.type = "text"
      · have hnh : ¬ trimWS (toLowerCase (m.text.getD "")) = "hi" :=
          fun hh => hnothi ⟨ht, hh⟩
        simp [hnh]
      · simp [ht]
  simp only [handleIncomingMessage, hno, Bool.false_eq_true, if_false]
  rw [getSession_hit_live hs now hexp]
  simp only []
  rcases hcase with ⟨h12, hnt⟩ | ⟨h3, hni, _⟩
  · have hm : (m.type != "text" || m.text.isNone) = true := by simp [hnt]
    rcases h12 with h1 | h2
    · simp only [h1, beq_self_eq_true, if_true]
      rw [handleNameCollection_mismatch hm]
      simp [h1]
    · have hb : ((2 : Nat) == 1) = false := by decide
      simp only [h2, hb, Bool.false_eq_true, if_false, beq_self_eq_true, if_true]
      rw [handleFeedbackCollection_mismatch hm]
      simp [h2]
  · have hm : (m.type != "image" || m.image.isNone) = true := by simp [hni]
    have hb1 : ((3 : Nat) == 1) = false := by decide
    have hb2 : ((3 : Nat) == 2) = false := by decide
    simp only [h3, hb1, hb2, Bool.false_eq_true, if_false, beq_self_eq_true, if_true]
    rw [handleImageCollection_mismatch hm]

/-- C9 counterexample: at step 3 the text message hi is non-image, yet
the dispatcher does not emit the needImage re-prompt and does not leave
the session unchanged — it replaces the session with a fresh step-1 one
and emits the greeting. -/
theorem C9_counterexample :
    handleIncomingMessage 5 [("u", Session.mk 3 "A" "F" "" 0 0)]
        { «from» := "u", type := "text", text := some "hi", image := none } =
      ([("u", Session.mk 1 "" "" "" 5 5)], [("u", Template.greeting)]) ∧
    Template.greeting ≠ Template.needImage := by
  decide

/-- C9 witness: an image at step 1 leaves everything but lastActivity
unchanged and re-prompts for text. -/
theorem C9_type_mismatch_reprompt_witness :
    handleIncomingMessage 9 [("u", Session.mk 1 "" "" "" 0 2)]
        { «from» := "u", type := "image", text := none, image := some "img" } =
      ([("u", Session.mk 1 "" "" "" 0 9)], [("u", Template.needText)]) := by
  have h := C9_type_mismatch_reprompt 9 [("u", Session.mk 1 "" "" "" 0 2)]
      { «from» := "u", type := "image", text := none, image := some "img" }
      (Session.mk 1 "" "" "" 0 2) (by decide) (by decide)
      (Or.inl ⟨Or.inl rfl, by decide⟩)
  simpa [Store.set, Store.delete] using h

/-- C10: resetting an existing session forces step 1, clears the
collected fields, and refreshes lastActivity while keeping the original
createdAt — unlike the hi trigger's createSession, which stamps a fresh
createdAt — so a completion after a reset measures its duration from the
original creation time. -/
theorem C10_reset_keeps_createdAt (now now2 now3 : Nat) (st : Store) (u : String)
    (s : Session) (hs : st.get? u = some s) :
    (resetSession now st u).1 =
      { step := 1, name := "", feedback := "", profileImageUrl := "",
        createdAt := s.createdAt, lastActivity := now } ∧
    (createSession now2 st u).1.createdAt = now2 ∧
    (completeSession now3 (resetSession now st u).2 u).2.1 =
      some { userPhone := u, name := "", feedback := "", profileImageUrl := "",
             sessionDurationMinutes := (now3 - s.createdAt + 30000) / 60000 } := by
  rw [resetSession_hit hs now]
  refine ⟨rfl, rfl, ?_⟩
  simp [completeSession, Store.get?_set_self, logCompletedFeedback]

/-- C10 witness: resetting a step-2 session created at time 100 keeps
createdAt at 100; completing one minute after creation logs 1 minute,
while a fresh createSession would stamp the new time. -/
theorem C10_reset_keeps_createdAt_witness :
    (resetSession 300 [("u", Session.mk 2 "A" "" "" 100 200)] "u").1 =
      { step := 1, name := "", feedback := "", profileImageUrl := "",
        createdAt := (Session.mk 2 "A" "" "" 100 200).createdAt, lastActivity := 300 } ∧
    (createSession 400 [("u", Session.mk 2 "A" "" "" 100 200)] "u").1.createdAt = 400 ∧
    (completeSession 60100
        (resetSession 300 [("u", Session.mk 2 "A" "" "" 100 200)] "u").2 "u").2.1 =
      some { userPhone := "u", name := "", feedback := "", profileImageUrl := "",
             sessionDurationMinutes :=
               (60100 - (Session.mk 2 "A" "" "" 100 200).createdAt + 30000) / 60000 } :=
  C10_reset_keeps_createdAt 300 400 60100 [("u", Session.mk 2 "A" "" "" 100 200)] "u"
    (Session.mk 2 "A" "" "" 100 200) (by decide)
